import Mathlib

/-!
Verification development for the review-stage training script
(review/train.py) of the Coarse-to-Fine review generation repository.

The Python source is shallowly embedded: pure computations become Lean
functions over `ℚ` (the script's floats), file-system effects are made
explicit (a filesystem is a map from paths to contents, writes are returned
as data), and the epoch loop becomes a fuel-indexed step function.
External collaborators (load.py, model.py, util.py, masked_cross_entropy.py,
torch) enter only through the interfaces train.py calls, modelled as
function parameters.
-/

namespace ReviewTrain

/-! ## Path helpers -/

/-- Python os.path.join(a, b) for a relative second component b. -/
def os_path_join (a b : String) : String := a ++ "/" ++ b

/-- Line 341 of train.py spells the call as os.path.joion; the os.path
module has no attribute of that name, so evaluating the expression raises
AttributeError before any value is produced. -/
def os_path_joion (_a _b : String) : Except String String :=
  Except.error "AttributeError: module os.path has no attribute joion"

/-! ## batchify (train.py lines 130-136)

batch2TrainData comes from util.py (external), so it is a function
parameter; vocab is opaque. The Python slice pairs[i*bsz : i*bsz+bsz]
is drop (i*bsz) followed by take bsz. -/

def batchify {V α β : Type} (batch2TrainData : V → List α → Bool → β)
    (vocab : V) (pairs : List α) (bsz : ℕ) (evaluation : Bool) : List β :=
  (List.range (pairs.length / bsz)).map
    (fun i => batch2TrainData vocab ((pairs.drop (i * bsz)).take bsz) evaluation)

/-- The raw slices batchify feeds to batch2TrainData, in order. -/
def batchSlices {α : Type} (pairs : List α) (bsz : ℕ) : List (List α) :=
  (List.range (pairs.length / bsz)).map (fun i => (pairs.drop (i * bsz)).take bsz)

/-! ## Batch cache files (train.py lines 149-177) -/

/-- Line 162: validation/test batches always use this fixed size. -/
def eval_batch_size : ℕ := 10

/-- Line 149: data_path = os.path.join(save_dir, "batches"). -/
def data_path (save_dir : String) : String := os_path_join save_dir "batches"

/-- Line 154/159: cache file for the training split, keyed by the
configured batch_size. -/
def training_cache_path (save_dir : String) (batch_size : ℕ) : String :=
  os_path_join (data_path save_dir) ("training_batches" ++ "_" ++ toString batch_size ++ ".tar")

/-- Line 164/169: cache file for the validation split.  The configured
batch_size of trainIters is in scope but unused: the file name is keyed by
eval_batch_size = 10. -/
def val_cache_path (save_dir : String) (_batch_size : ℕ) : String :=
  os_path_join (data_path save_dir) ("val_batches" ++ "_" ++ toString eval_batch_size ++ ".tar")

/-- Line 172/177: cache file for the test split, keyed by
eval_batch_size = 10, not by the configured batch_size. -/
def test_cache_path (save_dir : String) (_batch_size : ℕ) : String :=
  os_path_join (data_path save_dir) ("test_batches" ++ "_" ++ toString eval_batch_size ++ ".tar")

/-- Cache path as the specification words it: keyed by the (configured)
batch size for every split.  Written from the spec's path convention for
comparison with the source's path definitions above. -/
def spec_cache_path (save_dir name : String) (bsz : ℕ) : String :=
  os_path_join (os_path_join save_dir "batches") (name ++ "_" ++ toString bsz ++ ".tar")

/-- The only failure mode the script handles when loading a cache. -/
inductive FileError : Type
  | fileNotFound : FileError
deriving DecidableEq

/-- torch.load over a modeled filesystem (a map from path to stored
value); a missing file raises FileNotFoundError. -/
def torch_load {β : Type} (fs : String → Option β) (path : String) : Except FileError β :=
  match fs path with
  | some b => Except.ok b
  | none => Except.error FileError.fileNotFound

/-- The try/except FileNotFoundError pattern of lines 153-159 (and
163-169, 171-177): load the cache; on FileNotFoundError regenerate with
the supplied builder and torch.save the result to the same path.  Returns
the batches together with the cache write performed (if any). -/
def load_or_build {β : Type} (fs : String → Option β) (path : String)
    (build : Unit → β) : β × Option (String × β) :=
  match torch_load fs path with
  | Except.ok b => (b, none)
  | Except.error FileError.fileNotFound =>
      let b := build ()
      (b, some (path, b))

/-- Lines 152-159: training batches, built from train_pairs with the
configured batch_size (evaluation defaults to False). -/
def load_training_batches {V α β : Type} (fs : String → Option (List β))
    (save_dir : String) (batch_size : ℕ) (b2td : V → List α → Bool → β)
    (vocab : V) (train_pairs : List α) : List β × Option (String × List β) :=
  load_or_build fs (training_cache_path save_dir batch_size)
    (fun _ => batchify b2td vocab train_pairs batch_size false)

/-- Lines 163-169: validation batches, built from valid_pairs with
eval_batch_size and evaluation=True. -/
def load_val_batches {V α β : Type} (fs : String → Option (List β))
    (save_dir : String) (batch_size : ℕ) (b2td : V → List α → Bool → β)
    (vocab : V) (valid_pairs : List α) : List β × Option (String × List β) :=
  load_or_build fs (val_cache_path save_dir batch_size)
    (fun _ => batchify b2td vocab valid_pairs eval_batch_size true)

/-- Lines 171-177: test batches, built from test_pairs with
eval_batch_size and evaluation=True. -/
def load_test_batches {V α β : Type} (fs : String → Option (List β))
    (save_dir : String) (batch_size : ℕ) (b2td : V → List α → Bool → β)
    (vocab : V) (test_pairs : List α) : List β × Option (String × List β) :=
  load_or_build fs (test_cache_path save_dir batch_size)
    (fun _ => batchify b2td vocab test_pairs eval_batch_size true)

/-! ## adjust_learning_rate (train.py lines 32-35)

A torch optimizer's param_groups are represented by the list of their
current lr values (the only field lines 32-35 touch).  Note line 33 uses
integer division epoch // lr_decay_epoch and recomputes lr from the
learning_rate argument, not from the group's current value. -/

def adjust_learning_rate (param_groups : List ℚ) (epoch : ℕ) (learning_rate : ℚ)
    (lr_decay_epoch : ℕ) (lr_decay_ratio : ℚ) : List ℚ :=
  let lr := learning_rate * lr_decay_ratio ^ (epoch / lr_decay_epoch)
  param_groups.map (fun _ => lr)

/-! ## Embedding tables and frozen parameters
(train.py lines 37-43, 198-205, 230-232, 251-253) -/

/-- A torch.nn.Embedding: its declared shape, its weight matrix and the
weight's requires_grad flag. -/
structure Embedding : Type where
  num_embeddings : ℕ
  embedding_dim : ℕ
  weight : List (List ℚ)
  requires_grad : Bool
deriving DecidableEq

/-- torch.eye(n). -/
def torch_eye (n : ℕ) : List (List ℚ) :=
  (List.range n).map (fun i => (List.range n).map (fun j => if i = j then 1 else 0))

/-- torch.zeros(r, c). -/
def torch_zeros (r c : ℕ) : List (List ℚ) :=
  List.replicate r (List.replicate c (0 : ℚ))

/-- torch.cat((a, b), dim=1): rowwise concatenation. -/
def torch_cat_dim1 (a b : List (List ℚ)) : List (List ℚ) :=
  List.zipWith (fun ra rb => ra ++ rb) a b

/-- Lines 37-43: build an Embedding from a given 2-D weight matrix;
requires_grad is the negation of freeze (the source calls this with the
default freeze=True). -/
def from_pretrained (embeddings : List (List ℚ)) (freeze : Bool) : Embedding :=
  { num_embeddings := embeddings.length
    embedding_dim := (embeddings.headD []).length
    weight := embeddings
    requires_grad := !freeze }

/-- Line 204: the rating ("overall") embedding
remb = from_pretrained(torch.cat((torch.eye(num_over),
torch.zeros(num_over, attr_size - num_over)), dim=1)), with the default
freeze=True. -/
def remb (num_over attr_size : ℕ) : Embedding :=
  from_pretrained
    (torch_cat_dim1 (torch_eye num_over) (torch_zeros num_over (attr_size - num_over))) true

/-- Lines 230-232: aspect_ids = nn.Embedding(vocab.n_topics - 3, 100),
weight copied from the pickled ids, then requires_grad = False. -/
def aspect_ids_table (n_topics : ℕ) (ids : List (List ℚ)) : Embedding :=
  { num_embeddings := n_topics - 3
    embedding_dim := 100
    weight := ids
    requires_grad := false }

/-- Lines 251-253: each Adam optimizer is built over
filter(lambda p: p.requires_grad, module.parameters()). -/
def adam_params (params : List Embedding) : List Embedding :=
  params.filter (fun p => p.requires_grad)

/-- One optimizer step: only the parameters registered with the optimizer
(those with requires_grad, by the filter of lines 251-253) are mutated;
upd abstracts the Adam update applied to a weight. -/
def optimizer_step (upd : List (List ℚ) → List (List ℚ))
    (params : List Embedding) : List Embedding :=
  params.map (fun p => if p.requires_grad then { p with weight := upd p.weight } else p)

/-- A run of train steps: each step applies its own (arbitrary) update to
the trainable parameters. -/
def run_train_steps (upds : List (List (List ℚ) → List (List ℚ)))
    (params : List Embedding) : List Embedding :=
  upds.foldl (fun ps u => optimizer_step u ps) params

/-! ## Gradient clipping (train.py lines 80-89)

torch.nn.utils.clip_grad_norm (torch 0.3) computes the joint L2 norm
total_norm of all the gradients it is given, forms
clip_coef = max_norm / (total_norm + 1e-6) and, when clip_coef < 1,
scales every gradient by clip_coef.  A parameter group's gradients are
flattened into a single List ℚ.  Since the L2 norm of rational gradients
is irrational in general, the norm is passed as the argument tn,
constrained in theorems by tn * tn = sum of squared gradients. -/

def clip_eps : ℚ := 1 / 1000000

def clip_grad_norm (grads : List ℚ) (max_norm tn : ℚ) : List ℚ :=
  let clip_coef := max_norm / (tn + clip_eps)
  if clip_coef < 1 then grads.map (fun g => g * clip_coef) else grads

/-- Sum of squared entries: the square of the L2 norm. -/
def sumSq (gs : List ℚ) : ℚ := (gs.map (fun g => g * g)).sum

/-- The three parameter groups' (flattened, requires_grad-filtered)
gradients after loss.backward() in train. -/
structure Grads : Type where
  encoder_grads : List ℚ
  birnn_grads : List ℚ
  decoder_grads : List ℚ

/-- Lines 82-85: clip = 5.0 and the three independent clip_grad_norm
calls, which run after loss.backward() (line 80) and before the three
optimizer steps (lines 87-89); the result is the gradient state the
optimizer steps consume. -/
def train_clip_phase (g : Grads) (tn_e tn_b tn_d : ℚ) : Grads :=
  { encoder_grads := clip_grad_norm g.encoder_grads 5 tn_e
    birnn_grads := clip_grad_norm g.birnn_grads 5 tn_b
    decoder_grads := clip_grad_norm g.decoder_grads 5 tn_d }

/-! ## The forward computation of train and evaluate
(train.py lines 45-91 and 93-128)

Modelled from the spec: AttributeEncoder, EncoderRNN,
ReviewAttnDecoderRNN (model.py) and masked_cross_entropy
(masked_cross_entropy.py) are repository code outside the training
script; per spec sections 4.1-4.4 each is a deterministic map from its
inputs to its outputs (the submodules also expose n_layers), so they are
carried as opaque function fields/arguments.  Tensor types are type
parameters; a stacked hidden state is a list of per-layer hidden states,
and Python's encoder_hidden[:n_layers] is List.take. -/
structure Modules (A T S R E H O G D W : Type) : Type where
  n_layers : ℕ
  encoder : A → E × List H
  birnn_encoder : S → O × G
  review_decoder : R → List H → O → T → S → E → D × List H × W

/-- Lines 45-91 (train), restricted to the value computation: the loss
returned to the caller.  Line 67 binds review_decoder_input to
review_input and line 74 passes review_decoder_input to the decoder.
Lines 60-61 and 76-78 accumulate the single mask_loss into print_losses
and line 91 returns sum(print_losses) / len(print_losses). -/
def train_loss {A T S R RO Mk E H O G D W : Type}
    (m : Modules A T S R E H O G D W) (masked_cross_entropy : D → RO → Mk → ℚ)
    (attr_input : A) (topic_input : T) (sketch_output : S)
    (review_input : R) (review_output : RO) (mask : Mk) : ℚ :=
  let enc := m.encoder attr_input
  let encoder_out := enc.1
  let encoder_hidden := enc.2
  let review_decoder_input := review_input
  let review_decoder_hidden := encoder_hidden.take m.n_layers
  let sketch_birnn_output := (m.birnn_encoder sketch_output).1
  let review_decoder_output :=
    (m.review_decoder review_decoder_input review_decoder_hidden sketch_birnn_output
      topic_input sketch_output encoder_out).1
  let mask_loss := masked_cross_entropy review_decoder_output review_output mask
  let print_losses : List ℚ := [mask_loss]
  print_losses.sum / (print_losses.length : ℚ)

/-- Lines 93-128 (evaluate), same restriction.  Line 115 still binds
review_decoder_input, but line 122 passes review_input itself to the
decoder. -/
def evaluate_loss {A T S R RO Mk E H O G D W : Type}
    (m : Modules A T S R E H O G D W) (masked_cross_entropy : D → RO → Mk → ℚ)
    (attr_input : A) (topic_input : T) (sketch_output : S)
    (review_input : R) (review_output : RO) (mask : Mk) : ℚ :=
  let enc := m.encoder attr_input
  let encoder_out := enc.1
  let encoder_hidden := enc.2
  let review_decoder_input := review_input
  let review_decoder_hidden := encoder_hidden.take m.n_layers
  let sketch_birnn_output := (m.birnn_encoder sketch_output).1
  let review_decoder_output :=
    (m.review_decoder review_input review_decoder_hidden sketch_birnn_output
      topic_input sketch_output encoder_out).1
  let mask_loss := masked_cross_entropy review_decoder_output review_output mask
  let print_losses : List ℚ := [mask_loss]
  print_losses.sum / (print_losses.length : ℚ)

/-! ## Checkpoint structure and resume (train.py lines 237-281)

A checkpoint is the dictionary saved at lines 346-357: step, epoch, the
three submodule state_dicts, the three optimizer state_dicts, and the
loss/perplexity histories.  State dicts are opaque values of type
parameters σ (module states) and τ (optimizer states). -/
structure Checkpoint (σ τ : Type) : Type where
  step : ℕ
  epoch : ℕ
  encoder : σ
  encoder_opt : τ
  birnn_encoder : σ
  birnn_encoder_opt : τ
  review_decoder : σ
  review_decoder_opt : τ
  loss : List ℚ
  plt : List ℚ
deriving DecidableEq

/-- The training state right before the epoch loop of trainIters starts
(line 283): counters, histories, the three module states, the three
optimizer states, and the scalar events already replayed into the
SummaryWriter as (tag, value, step) triples. -/
structure InitState (σ τ : Type) : Type where
  step : ℕ
  epoch : ℕ
  encoder : σ
  encoder_opt : τ
  birnn_encoder : σ
  birnn_encoder_opt : τ
  review_decoder : σ
  review_decoder_opt : τ
  perplexity : List ℚ
  loss : List ℚ
  writerLog : List (String × ℚ × ℕ)
deriving DecidableEq

/-- Lines 237-241, 255-258, 260-281: the freshly built module/optimizer
states are replaced by the checkpoint's when loadFilename is given;
step, epoch, perplexity and loss start at 0/0/[]/[] (lines 262-265) and
are overwritten from the checkpoint (step, epoch + 1, plt, loss, lines
274-278); lines 279-281 replay writer.add_scalar("Train/loss", _loss[i], i)
and writer.add_scalar("Train/perplexity", perplexity[i], i) for
i in range(len(_loss)). -/
def initTrainingState {σ τ : Type} (fresh_encoder : σ) (fresh_encoder_opt : τ)
    (fresh_birnn : σ) (fresh_birnn_opt : τ) (fresh_decoder : σ) (fresh_decoder_opt : τ)
    (loadFilename : Option (Checkpoint σ τ)) : InitState σ τ :=
  match loadFilename with
  | none =>
      { step := 0, epoch := 0
        encoder := fresh_encoder, encoder_opt := fresh_encoder_opt
        birnn_encoder := fresh_birnn, birnn_encoder_opt := fresh_birnn_opt
        review_decoder := fresh_decoder, review_decoder_opt := fresh_decoder_opt
        perplexity := [], loss := [], writerLog := [] }
  | some c =>
      { step := c.step, epoch := c.epoch + 1
        encoder := c.encoder, encoder_opt := c.encoder_opt
        birnn_encoder := c.birnn_encoder, birnn_encoder_opt := c.birnn_encoder_opt
        review_decoder := c.review_decoder, review_decoder_opt := c.review_decoder_opt
        perplexity := c.plt, loss := c.loss
        writerLog :=
          (List.range c.loss.length).flatMap
            (fun i => [("Train/loss", c.loss.getD i 0, i),
                       ("Train/perplexity", c.plt.getD i 0, i)]) }

/-! ## The epoch loop of trainIters (train.py lines 283-381)

The loop state carries what the claims observe: counters, the three
optimizers' param-group lrs, the best validation loss, histories, the
torch.save calls performed (path and record), and the Test/loss scalars
logged.  The per-batch train(...) call and the evaluate(...) call are
carried in the configuration as opaque functions of a model state M
(their value-level behavior is pinned down separately by train_loss /
evaluate_loss); math.exp is the opaque math_exp.  The model state M
stands for the three submodules' and optimizers' mutable parameter
state. -/

/-- The param-group lr lists of the three optimizers (lines 251-253). -/
structure Optims3 : Type where
  encoder_lrs : List ℚ
  birnn_lrs : List ℚ
  decoder_lrs : List ℚ
deriving DecidableEq

/-- The dictionary torch.save writes at lines 346-357, with the six
state_dicts bundled into the model-state snapshot. -/
structure CheckpointRec (M : Type) : Type where
  step : ℕ
  epoch : ℕ
  model : M
  loss : List ℚ
  plt : List ℚ
deriving DecidableEq

structure LoopCfg (M B : Type) : Type where
  learning_rate : ℚ
  lr_decay_epoch : ℕ
  lr_decay_ratio : ℚ
  batch_size : ℕ
  n_layers : ℕ
  hidden_size : ℕ
  save_dir : String
  training_batches : List B
  val_batches : List B
  test_batches : List B
  trainStep : M → B → M × ℚ
  evalStep : M → B → ℚ
  math_exp : ℚ → ℚ

structure LoopState (M : Type) : Type where
  step : ℕ
  epoch : ℕ
  model : M
  optims : Optims3
  best_val_loss : Option ℚ
  loss_hist : List ℚ
  plt_hist : List ℚ
  saved : List (String × CheckpointRec M)
  test_log : List ℚ
deriving DecidableEq

/-- How an epoch iteration ends: fall through to the next epoch, break
out of the while loop (line 379), or propagate a Python exception. -/
inductive EpochExit : Type
  | cont : EpochExit
  | stop : EpochExit
  | exn : String → EpochExit
deriving DecidableEq

/-- Accumulator of the per-batch training loop (lines 296-313). -/
structure TrainAcc (M : Type) : Type where
  model : M
  step : ℕ
  tr_loss : ℚ
  loss_hist : List ℚ
  plt_hist : List ℚ

/-- One iteration of the for-loop over training_batches: call train,
step += 1, tr_loss += loss, append loss and math.exp(loss) to the
histories. -/
def train_fold {M B : Type} (cfg : LoopCfg M B) (acc : TrainAcc M) (b : B) : TrainAcc M :=
  let r := cfg.trainStep acc.model b
  { model := r.1
    step := acc.step + 1
    tr_loss := acc.tr_loss + r.2
    loss_hist := acc.loss_hist ++ [r.2]
    plt_hist := acc.plt_hist ++ [cfg.math_exp r.2] }

/-- Lines 285-332 of the epoch body: adjust the three optimizers'
learning rates (286-288), run the training batches (296-313), then
compute the mean validation loss vl_loss (324-332).  Returns the updated
state together with vl_loss. -/
def epoch_valid_phase {M B : Type} (cfg : LoopCfg M B) (st : LoopState M) :
    LoopState M × ℚ :=
  let optims : Optims3 :=
    { encoder_lrs := adjust_learning_rate st.optims.encoder_lrs st.epoch
        cfg.learning_rate cfg.lr_decay_epoch cfg.lr_decay_ratio
      birnn_lrs := adjust_learning_rate st.optims.birnn_lrs st.epoch
        cfg.learning_rate cfg.lr_decay_epoch cfg.lr_decay_ratio
      decoder_lrs := adjust_learning_rate st.optims.decoder_lrs st.epoch
        cfg.learning_rate cfg.lr_decay_epoch cfg.lr_decay_ratio }
  let acc := cfg.training_batches.foldl (train_fold cfg)
    { model := st.model, step := st.step, tr_loss := 0
      loss_hist := st.loss_hist, plt_hist := st.plt_hist }
  let vl_loss :=
    ((cfg.val_batches.map (cfg.evalStep acc.model)).sum) / (cfg.val_batches.length : ℚ)
  ({ st with
      step := acc.step
      model := acc.model
      optims := optims
      loss_hist := acc.loss_hist
      plt_hist := acc.plt_hist }, vl_loss)

/-- Python truthiness of the Optional float best_val_loss: None and 0.0
are falsy (line 342 tests "not best_val_loss"). -/
def py_truthy : Option ℚ → Bool
  | none => false
  | some q => q != 0

/-- Lines 342-381 given the already computed model_path: if
not best_val_loss or vl_loss < best_val_loss, torch.save the full
checkpoint under model_path/<n_layers>_<hidden_size>_<batch_size>/ with
file name <epoch>_review_model.tar (343-357), set best_val_loss = vl_loss
(358), and run the test evaluation logged to Test/loss (360-374).  Then
break if vl_loss > best_val_loss (377-379), else epoch += 1 (381). -/
def epoch_save_phase {M B : Type} (cfg : LoopCfg M B) (model_path : String)
    (st : LoopState M) (vl_loss : ℚ) : LoopState M × EpochExit :=
  let improved := (!py_truthy st.best_val_loss) || decide (vl_loss < st.best_val_loss.getD 0)
  let st1 :=
    if improved then
      let directory := os_path_join model_path
        (toString cfg.n_layers ++ "_" ++ toString cfg.hidden_size ++ "_" ++
          toString cfg.batch_size)
      let file := os_path_join directory (toString st.epoch ++ "_" ++ "review_model" ++ ".tar")
      let ckpt : CheckpointRec M :=
        { step := st.step, epoch := st.epoch, model := st.model
          loss := st.loss_hist, plt := st.plt_hist }
      let ts_loss :=
        ((cfg.test_batches.map (cfg.evalStep st.model)).sum) / (cfg.test_batches.length : ℚ)
      { st with
          saved := st.saved ++ [(file, ckpt)]
          best_val_loss := some vl_loss
          test_log := st.test_log ++ [ts_loss] }
    else st
  if decide (vl_loss > st1.best_val_loss.getD 0) then (st1, EpochExit.stop)
  else ({ st1 with epoch := st1.epoch + 1 }, EpochExit.cont)

/-- One full iteration of the while loop, as written: line 341 evaluates
os.path.joion(save_dir, "model"), which raises AttributeError, so the
save phase is never reached. -/
def epoch_body {M B : Type} (cfg : LoopCfg M B) (st : LoopState M) :
    LoopState M × EpochExit :=
  let r := epoch_valid_phase cfg st
  match os_path_joion cfg.save_dir "model" with
  | Except.error msg => (r.1, EpochExit.exn msg)
  | Except.ok model_path => epoch_save_phase cfg model_path r.1 r.2

/-- The same iteration with line 341 spelled os.path.join: the evident
intent of the source (and the behavior the spec describes). -/
def epoch_body_intended {M B : Type} (cfg : LoopCfg M B) (st : LoopState M) :
    LoopState M × EpochExit :=
  let r := epoch_valid_phase cfg st
  epoch_save_phase cfg (os_path_join cfg.save_dir "model") r.1 r.2

/-- The while True loop (283-381), bounded by fuel: runs epoch bodies
until one breaks or raises. -/
def run_epochs {M B : Type} (cfg : LoopCfg M B) : ℕ → LoopState M → LoopState M × EpochExit
  | 0, st => (st, EpochExit.cont)
  | Nat.succ n, st =>
      match epoch_body cfg st with
      | (st1, EpochExit.cont) => run_epochs cfg n st1
      | r => r

/-- The while True loop with the intended os.path.join. -/
def run_epochs_intended {M B : Type} (cfg : LoopCfg M B) :
    ℕ → LoopState M → LoopState M × EpochExit
  | 0, st => (st, EpochExit.cont)
  | Nat.succ n, st =>
      match epoch_body_intended cfg st with
      | (st1, EpochExit.cont) => run_epochs_intended cfg n st1
      | r => r

/-! ## A concrete scenario: per-epoch validation losses 2.5, 2.3, 2.4

The model state is the number of completed training batches; with one
training batch per epoch, evalStep reads off the scripted validation
loss of the epoch that just trained. -/

def scenario_val_losses : List ℚ := [5/2, 23/10, 12/5]

def scenario_cfg : LoopCfg ℕ Unit :=
  { learning_rate := 1, lr_decay_epoch := 1, lr_decay_ratio := 1
    batch_size := 2, n_layers := 2, hidden_size := 16, save_dir := "save"
    training_batches := [()], val_batches := [()], test_batches := [()]
    trainStep := fun m _ => (m + 1, 1)
    evalStep := fun m _ => scenario_val_losses.getD (m - 1) 0
    math_exp := fun _ => 0 }

def scenario_init : LoopState ℕ :=
  { step := 0, epoch := 0, model := 0, optims := ⟨[1], [1], [1]⟩
    best_val_loss := none, loss_hist := [], plt_hist := [], saved := [], test_log := [] }

/-! ## Theorems -/

/-- The message of the AttributeError raised by line 341. -/
def joion_msg : String := "AttributeError: module os.path has no attribute joion"

/-- Every epoch iteration, whatever the configuration and incoming state,
ends in the AttributeError from os.path.joion; nothing is ever saved, the
best validation loss never changes and no test loss is logged. -/
theorem epoch_body_always_raises {M B : Type} (cfg : LoopCfg M B) (st : LoopState M) :
    (epoch_body cfg st).2 = EpochExit.exn joion_msg ∧
    (epoch_body cfg st).1.saved = st.saved ∧
    (epoch_body cfg st).1.best_val_loss = st.best_val_loss ∧
    (epoch_body cfg st).1.test_log = st.test_log :=
  ⟨rfl, rfl, rfl, rfl⟩

/-- C1: in the epoch loop, an epoch with no recorded best validation loss
(the improvement condition of the claim holds) does not persist any
checkpoint, does not update the best validation loss and does not run the
test evaluation: the epoch ends in the AttributeError raised by the
misspelled os.path.joion on line 341, evaluated unconditionally before
the save branch.  Shown on a concrete first epoch (best_val_loss = None,
mean validation loss 5/2). -/
theorem checkpoint_save_unreachable_attribute_error :
    (epoch_body scenario_cfg scenario_init).2 = EpochExit.exn joion_msg ∧
    (epoch_body scenario_cfg scenario_init).1.saved = [] ∧
    (epoch_body scenario_cfg scenario_init).1.best_val_loss = none ∧
    (epoch_body scenario_cfg scenario_init).1.test_log = [] :=
  ⟨rfl, rfl, rfl, rfl⟩

/-- C2: on the validation-loss sequence 2.5, 2.3, 2.4, the loop does not
checkpoint at epochs 0 and 1 and stop after epoch 2 as claimed: it
raises the os.path.joion AttributeError during epoch 0, with no
checkpoint ever written. -/
theorem early_stop_scenario_crashes_in_epoch_zero :
    (run_epochs scenario_cfg 5 scenario_init).2 = EpochExit.exn joion_msg ∧
    (run_epochs scenario_cfg 5 scenario_init).1.saved = [] ∧
    (run_epochs scenario_cfg 5 scenario_init).1.epoch = 0 :=
  ⟨rfl, rfl, rfl⟩

/-- With line 341 spelled os.path.join, the 2.5/2.3/2.4 scenario behaves
exactly as the spec describes: checkpoints at epochs 0 and 1 under
save/model/2_16_2/, no checkpoint at epoch 2, best validation loss 2.3,
and the loop breaks with the epoch counter at 2. -/
theorem intended_early_stop_scenario :
    (run_epochs_intended scenario_cfg 5 scenario_init).2 = EpochExit.stop ∧
    (run_epochs_intended scenario_cfg 5 scenario_init).1.epoch = 2 ∧
    ((run_epochs_intended scenario_cfg 5 scenario_init).1.saved.map Prod.fst)
      = ["save/model/2_16_2/0_review_model.tar",
         "save/model/2_16_2/1_review_model.tar"] ∧
    (run_epochs_intended scenario_cfg 5 scenario_init).1.best_val_loss = some (23/10) := by
  simp only [run_epochs_intended, epoch_body_intended, epoch_valid_phase, epoch_save_phase,
    train_fold, adjust_learning_rate, py_truthy, scenario_cfg, scenario_init,
    scenario_val_losses, os_path_join, List.foldl, List.map, List.sum, List.length]
  norm_num
  exact ⟨rfl, rfl⟩

/-- C4: for any submodule functions, any masked_cross_entropy and any
batch, evaluate computes exactly the loss train computes; in particular
the value reaching the decoder is the same (train passes
review_decoder_input, which line 67 bound to review_input; evaluate
passes review_input directly), so the naming discrepancy does not change
the computed loss. -/
theorem evaluate_matches_train_loss {A T S R RO Mk E H O G D W : Type}
    (m : Modules A T S R E H O G D W) (mce : D → RO → Mk → ℚ)
    (attr_input : A) (topic_input : T) (sketch_output : S)
    (review_input : R) (review_output : RO) (mask : Mk) :
    evaluate_loss m mce attr_input topic_input sketch_output review_input review_output mask
      = train_loss m mce attr_input topic_input sketch_output review_input review_output mask :=
  rfl

/-- C8 counterexample: with save_dir = "save" and configured batch size
32, the validation cache file the code reads/writes is
save/batches/val_batches_10.tar, not the save/batches/val_batches_32.tar
the claim's path convention gives. -/
theorem val_cache_path_not_keyed_by_batch_size :
    val_cache_path "save" 32 = "save/batches/val_batches_10.tar" ∧
    val_cache_path "save" 32 ≠ spec_cache_path "save" "val_batches" 32 := by
  refine ⟨rfl, ?_⟩
  decide

/-- C8 amended: the training cache is at the claimed path keyed by the
configured batch size, but the validation and test caches are keyed by
the fixed eval_batch_size 10 whatever the configured batch size; when a
cache is absent each file receives the ordered batch list of its split
(training batched at batch_size, validation/test batched at 10). -/
theorem batch_cache_paths_amended {V α β : Type} (save_dir : String) (batch_size : ℕ)
    (b2td : V → List α → Bool → β) (vocab : V)
    (train_pairs valid_pairs test_pairs : List α) :
    training_cache_path save_dir batch_size
      = spec_cache_path save_dir "training_batches" batch_size ∧
    val_cache_path save_dir batch_size = spec_cache_path save_dir "val_batches" 10 ∧
    test_cache_path save_dir batch_size = spec_cache_path save_dir "test_batches" 10 ∧
    (load_training_batches (fun _ => none) save_dir batch_size b2td vocab train_pairs)
      = (batchify b2td vocab train_pairs batch_size false,
         some (training_cache_path save_dir batch_size,
               batchify b2td vocab train_pairs batch_size false)) ∧
    (load_val_batches (fun _ => none) save_dir batch_size b2td vocab valid_pairs)
      = (batchify b2td vocab valid_pairs eval_batch_size true,
         some (val_cache_path save_dir batch_size,
               batchify b2td vocab valid_pairs eval_batch_size true)) ∧
    (load_test_batches (fun _ => none) save_dir batch_size b2td vocab test_pairs)
      = (batchify b2td vocab test_pairs eval_batch_size true,
         some (test_cache_path save_dir batch_size,
               batchify b2td vocab test_pairs eval_batch_size true)) :=
  ⟨rfl, rfl, rfl, rfl, rfl, rfl⟩

/-- C9: when the cache file of a split is missing from the filesystem,
the loader catches the FileNotFoundError, rebuilds that split's batches
with batchify from the loaded pairs, writes a fresh cache file at the
same path, and returns the batches; the function is total, so a missing
cache file is never fatal. -/
theorem missing_cache_regenerates {V α β : Type} (fs : String → Option (List β))
    (save_dir : String) (batch_size : ℕ) (b2td : V → List α → Bool → β) (vocab : V)
    (train_pairs valid_pairs test_pairs : List α)
    (h1 : fs (training_cache_path save_dir batch_size) = none)
    (h2 : fs (val_cache_path save_dir batch_size) = none)
    (h3 : fs (test_cache_path save_dir batch_size) = none) :
    load_training_batches fs save_dir batch_size b2td vocab train_pairs
      = (batchify b2td vocab train_pairs batch_size false,
         some (training_cache_path save_dir batch_size,
               batchify b2td vocab train_pairs batch_size false)) ∧
    load_val_batches fs save_dir batch_size b2td vocab valid_pairs
      = (batchify b2td vocab valid_pairs eval_batch_size true,
         some (val_cache_path save_dir batch_size,
               batchify b2td vocab valid_pairs eval_batch_size true)) ∧
    load_test_batches fs save_dir batch_size b2td vocab test_pairs
      = (batchify b2td vocab test_pairs eval_batch_size true,
         some (test_cache_path save_dir batch_size,
               batchify b2td vocab test_pairs eval_batch_size true)) := by
  unfold load_training_batches load_val_batches load_test_batches load_or_build torch_load
  rw [h1, h2, h3]
  exact ⟨rfl, rfl, rfl⟩

/-- Witness for missing_cache_regenerates: an empty filesystem,
save_dir = "save", batch size 2 and pairs [1, 2, 3] regenerate the single
batch [1, 2] and write it to save/batches/training_batches_2.tar. -/
theorem missing_cache_regenerates_witness :
    load_training_batches (fun _ => none) "save" 2 (fun _ p _ => p) () [1, 2, 3]
      = ([[1, 2]], some ("save/batches/training_batches_2.tar", [[1, 2]])) := by
  have h := @missing_cache_regenerates Unit ℕ (List ℕ) (fun _ => none) "save" 2
    (fun _ p _ => p) () [1, 2, 3] [] [] rfl rfl rfl
  exact h.1.trans (by rfl)

/-- C3: adjust_learning_rate overwrites every param group's lr with
r0 * q ^ (e // d), recomputed from the base rate r0 (the current group
values are ignored, so nothing compounds), and the epoch body of
trainIters applies exactly this to each of the three optimizers at the
start of every epoch (lines 286-288), before anything else in the epoch
runs. -/
theorem adjust_learning_rate_formula {M B : Type} (cfg : LoopCfg M B) (st : LoopState M)
    (groups : List ℚ) (e d : ℕ) (r0 q : ℚ) (hd : 0 < d) (hcfg : 0 < cfg.lr_decay_epoch) :
    (adjust_learning_rate groups e r0 d q).length = groups.length ∧
    (∀ lr ∈ adjust_learning_rate groups e r0 d q, lr = r0 * q ^ (e / d)) ∧
    (∀ lr ∈ (epoch_body cfg st).1.optims.encoder_lrs,
        lr = cfg.learning_rate * cfg.lr_decay_ratio ^ (st.epoch / cfg.lr_decay_epoch)) ∧
    (∀ lr ∈ (epoch_body cfg st).1.optims.birnn_lrs,
        lr = cfg.learning_rate * cfg.lr_decay_ratio ^ (st.epoch / cfg.lr_decay_epoch)) ∧
    (∀ lr ∈ (epoch_body cfg st).1.optims.decoder_lrs,
        lr = cfg.learning_rate * cfg.lr_decay_ratio ^ (st.epoch / cfg.lr_decay_epoch)) := by
  have hmem : ∀ (g : List ℚ) (e2 d2 : ℕ) (r q2 : ℚ),
      ∀ lr ∈ adjust_learning_rate g e2 r d2 q2, lr = r * q2 ^ (e2 / d2) := by
    intro g e2 d2 r q2 lr hlr
    simp only [adjust_learning_rate, List.mem_map] at hlr
    obtain ⟨a, _, h⟩ := hlr
    exact h.symm
  have hopt : (epoch_body cfg st).1.optims =
      { encoder_lrs := adjust_learning_rate st.optims.encoder_lrs st.epoch
          cfg.learning_rate cfg.lr_decay_epoch cfg.lr_decay_ratio
        birnn_lrs := adjust_learning_rate st.optims.birnn_lrs st.epoch
          cfg.learning_rate cfg.lr_decay_epoch cfg.lr_decay_ratio
        decoder_lrs := adjust_learning_rate st.optims.decoder_lrs st.epoch
          cfg.learning_rate cfg.lr_decay_epoch cfg.lr_decay_ratio } := rfl
  refine ⟨by simp [adjust_learning_rate], hmem groups e d r0 q, ?_, ?_, ?_⟩ <;>
    rw [hopt] <;> exact hmem _ _ _ _ _

/-- Witness for adjust_learning_rate_formula at epoch 5, base rate 3,
decay interval 2, ratio 1/2: both groups get 3 * (1/2)^2 = 3/4, and the
group count is preserved. -/
theorem adjust_learning_rate_formula_witness :
    (adjust_learning_rate [7, 9] 5 3 2 (1/2)).length = 2 ∧
    ((3 : ℚ) / 4) = 3 * ((1 : ℚ)/2) ^ (5 / 2 : ℕ) := by
  have h := @adjust_learning_rate_formula ℕ Unit scenario_cfg scenario_init
    [7, 9] 5 2 3 (1/2) (by norm_num) (by norm_num [scenario_cfg])
  refine ⟨h.1, h.2.1 (3/4) ?_⟩
  norm_num [adjust_learning_rate]

/-- The flattened list of the slices batchify takes is exactly the first
n * bsz elements of pairs, in order. -/
theorem join_range_chunks {α : Type} (pairs : List α) (bsz : ℕ) :
    ∀ n : ℕ, n * bsz ≤ pairs.length →
      ((List.range n).map (fun i => (pairs.drop (i * bsz)).take bsz)).flatten
        = pairs.take (n * bsz) := by
  intro n
  induction n with
  | zero => intro _; simp
  | succ n ih =>
      intro h
      have hn : n * bsz ≤ pairs.length :=
        le_trans (Nat.mul_le_mul_right _ (Nat.le_succ n)) h
      rw [List.range_succ, List.map_append, List.flatten_append, ih hn]
      simp only [List.map_cons, List.map_nil, List.flatten_cons, List.flatten_nil,
        List.append_nil]
      rw [Nat.succ_mul, List.take_add]

/-- C10: for bsz > 0, batchify produces exactly len(pairs) // bsz
batches; batch i is built from the contiguous order-preserving slice
pairs[i*bsz : i*bsz+bsz]; the batches jointly consume exactly the first
(len(pairs) // bsz) * bsz elements, so the trailing len(pairs) mod bsz
pairs appear in no batch. -/
theorem batchify_spec {V α β : Type} (b2td : V → List α → Bool → β) (vocab : V)
    (pairs : List α) (bsz : ℕ) (evaluation : Bool) (hbsz : 0 < bsz) :
    (batchify b2td vocab pairs bsz evaluation).length = pairs.length / bsz ∧
    (∀ i : ℕ, ∀ hi : i < (batchify b2td vocab pairs bsz evaluation).length,
      (batchify b2td vocab pairs bsz evaluation).get ⟨i, hi⟩
        = b2td vocab ((pairs.drop (i * bsz)).take bsz) evaluation) ∧
    batchify b2td vocab pairs bsz evaluation
      = (batchSlices pairs bsz).map (fun s => b2td vocab s evaluation) ∧
    (batchSlices pairs bsz).flatten = pairs.take (pairs.length / bsz * bsz) := by
  refine ⟨by simp [batchify], ?_, ?_, ?_⟩
  · intro i hi
    simp [batchify, List.get_eq_getElem]
  · simp [batchify, batchSlices, List.map_map]
  · exact join_range_chunks pairs bsz _ (Nat.div_mul_le_self _ _)

/-- Witness for batchify_spec: pairs [1,2,3,4,5] at batch size 2 give the
two batches [1,2] and [3,4]; the trailing element 5 is in no slice. -/
theorem batchify_spec_witness :
    (batchify (fun _ p _ => p) () [1, 2, 3, 4, 5] 2 false).length = 2 ∧
    (batchSlices [1, 2, 3, 4, 5] 2).flatten = [1, 2, 3, 4] := by
  have h := @batchify_spec Unit ℕ (List ℕ) (fun _ p _ => p) () [1, 2, 3, 4, 5] 2 false
    (by norm_num)
  exact ⟨h.1, h.2.2.2⟩

theorem clip_eps_pos : (0 : ℚ) < clip_eps := by norm_num [clip_eps]

theorem sumSq_map_mul (gs : List ℚ) (c : ℚ) :
    sumSq (gs.map (fun g => g * c)) = sumSq gs * (c * c) := by
  induction gs with
  | nil => simp [sumSq]
  | cons g t ih =>
      simp only [sumSq, List.map_cons, List.sum_cons] at ih ⊢
      rw [ih]
      ring

/-- Core clipping bound: if tn is the L2 norm of the gradients
(tn ≥ 0 and tn² equals the sum of squares), then after clip_grad_norm
with threshold m > 0 the sum of squared gradients is at most m². -/
theorem sumSq_clip_grad_norm_le (gs : List ℚ) (m tn : ℚ) (hm : 0 < m) (h0 : 0 ≤ tn)
    (hnorm : tn * tn = sumSq gs) :
    sumSq (clip_grad_norm gs m tn) ≤ m * m := by
  have hpos : 0 < tn + clip_eps := by linarith [clip_eps_pos]
  by_cases hlt : m / (tn + clip_eps) < 1
  · have hrw : clip_grad_norm gs m tn = gs.map (fun g => g * (m / (tn + clip_eps))) := by
      simp [clip_grad_norm, hlt]
    rw [hrw, sumSq_map_mul, ← hnorm]
    have hc : 0 ≤ m / (tn + clip_eps) := div_nonneg hm.le hpos.le
    have h1 : tn * (m / (tn + clip_eps)) ≤ m := by
      rw [mul_div_assoc']
      rw [div_le_iff₀ hpos]
      nlinarith [mul_pos hm clip_eps_pos]
    nlinarith [mul_self_le_mul_self (mul_nonneg h0 hc) h1]
  · have hrw : clip_grad_norm gs m tn = gs := by
      simp [clip_grad_norm, hlt]
    rw [hrw, ← hnorm]
    push_neg at hlt
    have h2 : tn + clip_eps ≤ m := by
      rw [le_div_iff₀ hpos] at hlt
      linarith
    have h3 : tn ≤ m := by linarith [clip_eps_pos]
    nlinarith [mul_self_le_mul_self h0 h3]

/-- C6: in train, between loss.backward() and the optimizer steps, each
of the three parameter groups' gradients (those of the requires_grad
parameters, which is what lines 83-85 filter) is clipped independently
with threshold 5.0; afterwards each group's squared L2 norm is at most
5² = 25, i.e. each L2 norm is at most 5 — exactly, with no tolerance
needed over ℚ.  tn_e, tn_b, tn_d are the groups' pre-clip L2 norms. -/
theorem grad_clip_norm_le_threshold (g : Grads) (tn_e tn_b tn_d : ℚ)
    (he0 : 0 ≤ tn_e) (he : tn_e * tn_e = sumSq g.encoder_grads)
    (hb0 : 0 ≤ tn_b) (hb : tn_b * tn_b = sumSq g.birnn_grads)
    (hd0 : 0 ≤ tn_d) (hd : tn_d * tn_d = sumSq g.decoder_grads) :
    sumSq (train_clip_phase g tn_e tn_b tn_d).encoder_grads ≤ 5 * 5 ∧
    sumSq (train_clip_phase g tn_e tn_b tn_d).birnn_grads ≤ 5 * 5 ∧
    sumSq (train_clip_phase g tn_e tn_b tn_d).decoder_grads ≤ 5 * 5 :=
  ⟨sumSq_clip_grad_norm_le _ _ _ (by norm_num) he0 he,
   sumSq_clip_grad_norm_le _ _ _ (by norm_num) hb0 hb,
   sumSq_clip_grad_norm_le _ _ _ (by norm_num) hd0 hd⟩

/-- Witness for grad_clip_norm_le_threshold: encoder grads [3,4] (norm 5),
birnn grads [6,8] (norm 10, which gets scaled), decoder grads [0]
(norm 0). -/
theorem grad_clip_norm_le_threshold_witness :
    sumSq (train_clip_phase ⟨[3, 4], [6, 8], [0]⟩ 5 10 0).encoder_grads ≤ 5 * 5 ∧
    sumSq (train_clip_phase ⟨[3, 4], [6, 8], [0]⟩ 5 10 0).birnn_grads ≤ 5 * 5 ∧
    sumSq (train_clip_phase ⟨[3, 4], [6, 8], [0]⟩ 5 10 0).decoder_grads ≤ 5 * 5 :=
  grad_clip_norm_le_threshold ⟨[3, 4], [6, 8], [0]⟩ 5 10 0
    (by norm_num) (by norm_num [sumSq]) (by norm_num) (by norm_num [sumSq])
    (by norm_num) (by norm_num [sumSq])

theorem optimizer_step_length (u : List (List ℚ) → List (List ℚ))
    (params : List Embedding) : (optimizer_step u params).length = params.length := by
  simp [optimizer_step]

theorem run_train_steps_length (upds : List (List (List ℚ) → List (List ℚ)))
    (params : List Embedding) : (run_train_steps upds params).length = params.length := by
  induction upds generalizing params with
  | nil => rfl
  | cons u us ih =>
      rw [show run_train_steps (u :: us) params
            = run_train_steps us (optimizer_step u params) from rfl,
        ih, optimizer_step_length]

/-- A parameter with requires_grad = False is untouched by any run of
optimizer steps: it stays at position k with its exact original value. -/
theorem run_train_steps_frozen (upds : List (List (List ℚ) → List (List ℚ)))
    (params : List Embedding) (k : ℕ) (p : Embedding)
    (hp : params[k]? = some p) (hfr : p.requires_grad = false) :
    (run_train_steps upds params)[k]? = some p := by
  induction upds generalizing params with
  | nil => exact hp
  | cons u us ih =>
      have hstep : (optimizer_step u params)[k]? = some p := by
        simp [optimizer_step, List.getElem?_map, hp, hfr]
      exact ih (optimizer_step u params) hstep

/-- The entry pattern of the rating embedding weight: within the first
num_over columns it is the identity matrix, beyond them it is zero. -/
theorem remb_entry (num_over attr_size i j : ℕ) (hno : num_over ≤ attr_size)
    (hi : i < num_over) (hj : j < attr_size) :
    (((remb num_over attr_size).weight.getD i []).getD j 0)
      = if j < num_over then (if i = j then (1 : ℚ) else 0) else 0 := by
  have hlen : (torch_cat_dim1 (torch_eye num_over)
      (torch_zeros num_over (attr_size - num_over))).length = num_over := by
    simp [torch_cat_dim1, torch_eye, torch_zeros]
  have hrow : (remb num_over attr_size).weight.getD i []
      = ((List.range num_over).map (fun j2 => if i = j2 then (1 : ℚ) else 0))
        ++ List.replicate (attr_size - num_over) (0 : ℚ) := by
    rw [show (remb num_over attr_size).weight
          = torch_cat_dim1 (torch_eye num_over) (torch_zeros num_over (attr_size - num_over))
        from rfl]
    rw [List.getD_eq_getElem _ _ (by rw [hlen]; exact hi)]
    simp [torch_cat_dim1, torch_eye, torch_zeros, List.getElem_zipWith]
  rw [hrow]
  by_cases hjn : j < num_over
  · rw [if_pos hjn]
    rw [List.getD_append _ _ _ _ (by simpa using hjn)]
    rw [List.getD_eq_getElem _ _ (by simpa using hjn)]
    simp
  · rw [if_neg hjn]
    rw [List.getD_append_right _ _ _ _ (by simpa using Nat.le_of_not_lt hjn)]
    rw [List.getD_eq_getElem _ _ (by simp; omega)]
    simp

/-- C5: the rating ("overall") embedding is the identity of size num_over
padded with zero columns up to attr_size, and carries
requires_grad = False (from_pretrained with the default freeze=True); the
aspect lookup table has vocab.n_topics - 3 rows and requires_grad = False;
every optimizer is built over only requires_grad parameters
(lines 251-253), so frozen parameters belong to no optimizer; and a
frozen parameter's value is unchanged by any number of train steps. -/
theorem frozen_embeddings_never_updated (num_over attr_size n_topics : ℕ)
    (ids : List (List ℚ)) (upds : List (List (List ℚ) → List (List ℚ)))
    (params : List Embedding) (i j k : ℕ) (p : Embedding)
    (hno : num_over ≤ attr_size) (hi : i < num_over) (hj : j < attr_size)
    (hp : params[k]? = some p) (hfr : p.requires_grad = false) :
    (remb num_over attr_size).requires_grad = false ∧
    (aspect_ids_table n_topics ids).requires_grad = false ∧
    (aspect_ids_table n_topics ids).num_embeddings = n_topics - 3 ∧
    (((remb num_over attr_size).weight.getD i []).getD j 0
       = if j < num_over then (if i = j then (1 : ℚ) else 0) else 0) ∧
    (∀ q ∈ adam_params params, q.requires_grad = true) ∧
    (run_train_steps upds params)[k]? = some p := by
  refine ⟨rfl, rfl, rfl, remb_entry num_over attr_size i j hno hi hj, ?_,
    run_train_steps_frozen upds params k p hp hfr⟩
  intro q hq
  simpa using (List.mem_filter.mp hq).2

/-- Witness for frozen_embeddings_never_updated: the 2x4 rating table is
frozen, its entry (0, 2) is in the zero padding, and one training step
with a nontrivial update leaves it untouched. -/
theorem frozen_embeddings_never_updated_witness :
    (remb 2 4).requires_grad = false ∧
    (((remb 2 4).weight.getD 0 []).getD 2 0 = (0 : ℚ)) ∧
    (run_train_steps [fun w => w.map (fun r => r.map (fun x => x + 1))] [remb 2 4])[0]?
      = some (remb 2 4) := by
  have h := frozen_embeddings_never_updated 2 4 7 [[1]]
    [fun w => w.map (fun r => r.map (fun x => x + 1))] [remb 2 4] 0 2 0 (remb 2 4)
    (by norm_num) (by norm_num) (by norm_num) rfl rfl
  refine ⟨h.1, ?_, h.2.2.2.2.2⟩
  rw [h.2.2.2.1]
  norm_num

/-- C7: given a checkpoint, trainIters restores all three submodule
parameter states and all three optimizer states, sets step to the stored
step and epoch to the stored epoch plus one, restores the loss and
perplexity histories, and replays every historical (loss, perplexity)
pair into the metrics logger (at index i) before the epoch loop begins
(initTrainingState models lines 237-281, which precede the while loop of
line 283). -/
theorem checkpoint_resume_restores_state {σ τ : Type}
    (fe : σ) (foe : τ) (fb : σ) (fob : τ) (fd : σ) (fod : τ)
    (c : Checkpoint σ τ) (i : ℕ)
    (hlen : c.plt.length = c.loss.length) (hi : i < c.loss.length) :
    (initTrainingState fe foe fb fob fd fod (some c)).step = c.step ∧
    (initTrainingState fe foe fb fob fd fod (some c)).epoch = c.epoch + 1 ∧
    (initTrainingState fe foe fb fob fd fod (some c)).encoder = c.encoder ∧
    (initTrainingState fe foe fb fob fd fod (some c)).encoder_opt = c.encoder_opt ∧
    (initTrainingState fe foe fb fob fd fod (some c)).birnn_encoder = c.birnn_encoder ∧
    (initTrainingState fe foe fb fob fd fod (some c)).birnn_encoder_opt = c.birnn_encoder_opt ∧
    (initTrainingState fe foe fb fob fd fod (some c)).review_decoder = c.review_decoder ∧
    (initTrainingState fe foe fb fob fd fod (some c)).review_decoder_opt = c.review_decoder_opt ∧
    (initTrainingState fe foe fb fob fd fod (some c)).perplexity = c.plt ∧
    (initTrainingState fe foe fb fob fd fod (some c)).loss = c.loss ∧
    ("Train/loss", c.loss.getD i 0, i)
      ∈ (initTrainingState fe foe fb fob fd fod (some c)).writerLog ∧
    ("Train/perplexity", c.plt.getD i 0, i)
      ∈ (initTrainingState fe foe fb fob fd fod (some c)).writerLog := by
  refine ⟨rfl, rfl, rfl, rfl, rfl, rfl, rfl, rfl, rfl, rfl, ?_, ?_⟩ <;>
  · simp only [initTrainingState, List.mem_flatMap]
    exact ⟨i, List.mem_range.mpr hi, by simp⟩

/-- Witness for checkpoint_resume_restores_state: resuming from a
checkpoint with step 7, epoch 3 and two history entries continues at
epoch 4 and has both replayed perplexity events in the logger. -/
theorem checkpoint_resume_restores_state_witness :
    (initTrainingState 0 0 0 0 0 0 (some ⟨7, 3, 11, 21, 12, 22, 13, 23, [5, 9], [2, 3]⟩)).step
      = 7 ∧
    (initTrainingState 0 0 0 0 0 0 (some ⟨7, 3, 11, 21, 12, 22, 13, 23, [5, 9], [2, 3]⟩)).epoch
      = 4 ∧
    ("Train/perplexity", (3 : ℚ), 1)
      ∈ (initTrainingState 0 0 0 0 0 0
          (some ⟨7, 3, 11, 21, 12, 22, 13, 23, [5, 9], [2, 3]⟩)).writerLog := by
  have h := @checkpoint_resume_restores_state ℕ ℕ 0 0 0 0 0 0
    ⟨7, 3, 11, 21, 12, 22, 13, 23, [5, 9], [2, 3]⟩ 1 rfl (by norm_num)
  exact ⟨h.1, h.2.1, h.2.2.2.2.2.2.2.2.2.2.2⟩

end ReviewTrain
